import Mathlib

/-!
Verification of the pysimplex motor-driver repository: a shallow embedding of
`conversions.py` (unit converter) and `pysimplexmotor.py` (Modbus motor driver),
with theorems settling the specification's claims about them.
-/

namespace PySimplex

/-! ## Unit converter (`conversions.py`) -/

/-- Value of the Python float constant `math.pi` (the IEEE-754 double nearest
to pi), as an exact rational: 884279719003555 / 2^48. -/
def mathPi : ℚ := 884279719003555 / 281474976710656

/-- A Python number argument: either an `int` or a non-`int` number (float).
`isinstance(x, int)` distinguishes the two. -/
inductive PyNum where
  | int (i : Int)
  | float (q : ℚ)
  deriving DecidableEq, Repr

/-- Python exceptions the converter can raise: the constructor's failed
`assert isinstance(gear_multiplier, int)` raises AssertionError; accessing the
never-assigned attribute `self.wheel_size` raises AttributeError. -/
inductive PyError where
  | assertionError
  | attributeError
  deriving DecidableEq, Repr

/-- The converter's instance state after `__init__`: `gear_multiplier` is always
assigned; `wheel_size` is an attribute that may never have been assigned
(`none` models the absent attribute). -/
structure PySimplexConverter where
  gear_multiplier : Int
  wheel_size : Option ℚ
  deriving DecidableEq, Repr

/-- Embedding of `PySimplexConverter.__init__(self, gear_multiplier, **kwargs)`:
asserts `isinstance(gear_multiplier, int)`, and only when at least one keyword
argument was passed sets `self.wheel_size = kwargs.get("wheel_size", 1)`. -/
def mkConverter (gear_multiplier : PyNum) (kwargs : List (String × ℚ)) :
    Except PyError PySimplexConverter :=
  match gear_multiplier with
  | PyNum.float _ => Except.error PyError.assertionError
  | PyNum.int i =>
    if kwargs.length > 0 then
      Except.ok { gear_multiplier := i,
                  wheel_size := some ((kwargs.lookup "wheel_size").getD 1) }
    else
      Except.ok { gear_multiplier := i, wheel_size := none }

/-- Embedding of `convert_smunits_to_degrees`: `int(floor(steps / 4096 / gear * 360))`,
with the float arithmetic modelled exactly over the rationals. -/
def convert_smunits_to_degrees (c : PySimplexConverter) (steps : Int) : Int :=
  Int.floor ((steps : ℚ) / 4096 / (c.gear_multiplier : ℚ) * 360)

/-- Embedding of `convert_degrees_to_smunits`: `int(floor(degrees / 360 * 4096 * gear))`. -/
def convert_degrees_to_smunits (c : PySimplexConverter) (degrees : Int) : Int :=
  Int.floor ((degrees : ℚ) / 360 * 4096 * (c.gear_multiplier : ℚ))

/-- Embedding of `convert_meters_to_steps`: reading `self.wheel_size` on a
converter that never assigned it raises AttributeError; otherwise
`int(floor(meters / (wheel_size * pi * 2) * 4096 * gear))`. -/
def convert_meters_to_steps (c : PySimplexConverter) (meters : ℚ) :
    Except PyError Int :=
  match c.wheel_size with
  | none => Except.error PyError.attributeError
  | some w =>
    Except.ok (Int.floor (meters / (w * mathPi * 2) * 4096 * (c.gear_multiplier : ℚ)))

/-- Embedding of `convert_steps_to_meters`: reading `self.wheel_size` on a
converter that never assigned it raises AttributeError; otherwise
`int(floor(2 * pi * wheel_size * (steps / 4096 / gear)))`. -/
def convert_steps_to_meters (c : PySimplexConverter) (steps : Int) :
    Except PyError Int :=
  match c.wheel_size with
  | none => Except.error PyError.attributeError
  | some w =>
    Except.ok (Int.floor (2 * mathPi * w * ((steps : ℚ) / 4096 / (c.gear_multiplier : ℚ))))

/-! ## Motor driver (`pysimplexmotor.py`)

The driver talks to a Modbus client. We embed the client as an oracle giving,
for each bus transaction in sequence (numbered by a counter), either the read
response or the write success flag, and each driver operation additionally
returns the trace of bus transactions it issued. -/

/-- Modelled from the spec: the register-map constants (`constants.py`, imported
by the driver via `from constants import *`, is not in the source tree). The
spec gives the logical register names; their numeric addresses are irrelevant
to the claims, so registers are embedded as an enumeration of names. -/
inductive Reg where
  | MOTOR_POS
  | MOTOR_SPEED
  | MOTOR_TORQUE
  | MOTOR_RAMP_ACC
  | SET_MOTOR_TARGET
  | MOTOR_MAX_SPEED
  | MOTOR_MAX_TORQUE
  | MOTOR_MAX_ACCELERATION
  | MOTOR_MAX_DECELERATION
  | MODE
  | MOTOR_VOLTAGE
  | TORQUE_CURRENT
  | TEMP_ELECTRONICS
  | ERROR
  deriving DecidableEq, Repr

/-- One bus transaction as issued by the driver: a holding-register read of a
given count, a single-register write, or a multi-register write. -/
inductive Tx where
  | read (r : Reg) (count : Nat)
  | write (r : Reg) (value : Int)
  | writeMulti (r : Reg) (values : List Nat)
  deriving DecidableEq, Repr

/-- The Modbus client as an oracle over the transaction counter: the nth bus
exchange yields `readAt n` when it is a read (an error response, or the list of
16-bit register values) and `writeAt n` when it is a write (its success flag). -/
structure Oracle where
  readAt : Nat → Except Unit (List Nat)
  writeAt : Nat → Bool

/-- Embedding of `modbus_client.read_holding_registers(reg, count, unit=addr)`:
consumes one oracle slot, emits one read transaction. -/
def read_holding_registers (o : Oracle) (n : Nat) (r : Reg) (count : Nat) :
    Except Unit (List Nat) × Nat × List Tx :=
  (o.readAt n, n + 1, [Tx.read r count])

/-- Embedding of `modbus_client.write_register(reg, value, unit=addr)`. -/
def write_register (o : Oracle) (n : Nat) (r : Reg) (v : Int) :
    Bool × Nat × List Tx :=
  (o.writeAt n, n + 1, [Tx.write r v])

/-- Embedding of `modbus_client.write_registers(reg, values, unit=addr)`. -/
def write_registers (o : Oracle) (n : Nat) (r : Reg) (vs : List Nat) :
    Bool × Nat × List Tx :=
  (o.writeAt n, n + 1, [Tx.writeMulti r vs])

/-- Signed interpretation of one 16-bit register value, as produced by
`BinaryPayloadDecoder.decode_16bit_int`. -/
def toInt16 (r : Nat) : Int :=
  if r < 32768 then (r : Int) else (r : Int) - 65536

/-- Signed interpretation of a 32-bit value packed big-endian across two
registers, as produced by `decode_32bit_int` with Big/Big order. -/
def toInt32 (u : Nat) : Int :=
  if u < 2147483648 then (u : Int) else (u : Int) - 4294967296

/-- Big/Big-endian register encoding of a 32-bit signed integer, as produced by
`BinaryPayloadBuilder.add_32bit_int` followed by `to_registers`: the
most-significant 16 bits first. -/
def enc32 (t : Int) : List Nat :=
  [(t % 4294967296).toNat / 65536, (t % 4294967296).toNat % 65536]

/-- Embedding of `get_mode`: one 1-register read of MODE; raises on a transport
error (or a malformed empty response), else returns `registers[0]`. -/
def get_mode (o : Oracle) (n : Nat) : Except Unit Nat × Nat × List Tx :=
  match read_holding_registers o n Reg.MODE 1 with
  | (Except.error e, n1, t1) => (Except.error e, n1, t1)
  | (Except.ok regs, n1, t1) =>
    match regs.head? with
    | some m => (Except.ok m, n1, t1)
    | none => (Except.error (), n1, t1)

/-- Embedding of `get_torque`: one 1-register read of MOTOR_TORQUE; raises on a
transport error, else returns `registers[0]` unchanged (no sign decoding). -/
def get_torque (o : Oracle) (n : Nat) : Except Unit Nat × Nat × List Tx :=
  match read_holding_registers o n Reg.MOTOR_TORQUE 1 with
  | (Except.error e, n1, t1) => (Except.error e, n1, t1)
  | (Except.ok regs, n1, t1) =>
    match regs.head? with
    | some v => (Except.ok v, n1, t1)
    | none => (Except.error (), n1, t1)

/-- Embedding of `set_max_speed`. -/
def set_max_speed (o : Oracle) (n : Nat) (sm_units : Int) : Bool × Nat × List Tx :=
  write_register o n Reg.MOTOR_MAX_SPEED sm_units

/-- Embedding of `set_max_acceleration`. -/
def set_max_acceleration (o : Oracle) (n : Nat) (steps : Int) : Bool × Nat × List Tx :=
  write_register o n Reg.MOTOR_MAX_ACCELERATION steps

/-- Embedding of `set_mode`. -/
def set_mode (o : Oracle) (n : Nat) (mode : Int) : Bool × Nat × List Tx :=
  write_register o n Reg.MODE mode

/-- Embedding of `reset_motor`: writes MODE = 1. -/
def reset_motor (o : Oracle) (n : Nat) : Bool × Nat × List Tx :=
  write_register o n Reg.MODE 1

/-- Embedding of `set_target`: packs the target as a 32-bit Big/Big value and
writes it across two registers starting at SET_MOTOR_TARGET. -/
def set_target (o : Oracle) (n : Nat) (target : Int) : Bool × Nat × List Tx :=
  write_registers o n Reg.SET_MOTOR_TARGET (enc32 target)

/-- Embedding of `go_with_speed`: reads the mode; if it differs from 33,
resets (raising when the reset write fails) and writes MODE = 33 ignoring that
write's result; then writes max acceleration (result ignored) and returns the
result of the target write. -/
def go_with_speed (o : Oracle) (n : Nat) (speed_units acc_units : Int) :
    Except Unit Bool × Nat × List Tx :=
  match get_mode o n with
  | (Except.error e, n1, t1) => (Except.error e, n1, t1)
  | (Except.ok read_mode, n1, t1) =>
    if read_mode ≠ 33 then
      match reset_motor o n1 with
      | (false, n2, t2) => (Except.error (), n2, t1 ++ t2)
      | (true, n2, t2) =>
        let s3 := set_mode o n2 33
        let s4 := set_max_acceleration o s3.2.1 acc_units
        let s5 := set_target o s4.2.1 speed_units
        (Except.ok s5.1, s5.2.1, t1 ++ t2 ++ s3.2.2 ++ s4.2.2 ++ s5.2.2)
    else
      let s4 := set_max_acceleration o n1 acc_units
      let s5 := set_target o s4.2.1 speed_units
      (Except.ok s5.1, s5.2.1, t1 ++ s4.2.2 ++ s5.2.2)

/-- Embedding of `go_to_position`: reads the mode; if it differs from 21,
resets (raising when the reset write fails) and writes MODE = 21 ignoring that
write's result; then writes max speed and max acceleration (results ignored)
and returns the result of the target write. -/
def go_to_position (o : Oracle) (n : Nat) (steps speed_units acc_units : Int) :
    Except Unit Bool × Nat × List Tx :=
  match get_mode o n with
  | (Except.error e, n1, t1) => (Except.error e, n1, t1)
  | (Except.ok read_mode, n1, t1) =>
    if read_mode ≠ 21 then
      match reset_motor o n1 with
      | (false, n2, t2) => (Except.error (), n2, t1 ++ t2)
      | (true, n2, t2) =>
        let s3 := set_mode o n2 21
        let s4 := set_max_speed o s3.2.1 speed_units
        let s5 := set_max_acceleration o s4.2.1 acc_units
        let s6 := set_target o s5.2.1 steps
        (Except.ok s6.1, s6.2.1, t1 ++ t2 ++ s3.2.2 ++ s4.2.2 ++ s5.2.2 ++ s6.2.2)
    else
      let s4 := set_max_speed o n1 speed_units
      let s5 := set_max_acceleration o s4.2.1 acc_units
      let s6 := set_target o s5.2.1 steps
      (Except.ok s6.1, s6.2.1, t1 ++ s4.2.2 ++ s5.2.2 ++ s6.2.2)

/-- A convenience oracle built from a script: the nth read response comes from
`reads` (defaulting to an error response) and the nth write success from
`writes` (defaulting to false). Both lists are indexed by the global
transaction counter. -/
def scriptOracle (reads : List (Except Unit (List Nat))) (writes : List Bool) :
    Oracle :=
  { readAt := fun n => reads.getD n (Except.error ()),
    writeAt := fun n => writes.getD n false }

/-- The `error` field of the status dictionary: the raw numeric code when no
branch of the if-chain matched, else the descriptive string. -/
inductive ErrorVal where
  | code (n : Nat)
  | msg (s : String)
  deriving DecidableEq, Repr

/-- Embedding of the error-code if-chain in `get_current_status`. After the
first matching branch replaces the integer by a string, every later integer
comparison is false, so the sequential chain is first-match. -/
def errorDecode (e : Nat) : ErrorVal :=
  if e = 0 then ErrorVal.msg "No error"
  else if e = 1 then ErrorVal.msg "General internal error"
  else if e = 2 then ErrorVal.msg "Internal software timing error"
  else if e = 3 then ErrorVal.msg "Error in application: code not terminating"
  else if e = 4097 then ErrorVal.msg "General communication error"
  else if e = 4098 then ErrorVal.msg "Invalid register error"
  else if e = 4353 then ErrorVal.msg "Modbus parity error"
  else if e = 4354 then ErrorVal.msg "Modbus framing error"
  else if e = 4355 then ErrorVal.msg "Modbus overrun error"
  else if e = 4356 then ErrorVal.msg "Modbus checksum error"
  else if e = 4357 then ErrorVal.msg "Modbus illegal function code error"
  else if e = 4358 then ErrorVal.msg "Modbus illegal diagnostics function code error"
  else if e = 8193 then ErrorVal.msg "Hardware overcurrent protection triggered"
  else if e = 12289 then ErrorVal.msg "Supply voltage too low"
  else if e = 12290 then ErrorVal.msg "Supply voltage too high"
  else if e = 16385 then ErrorVal.msg "Temperature of electronics is too high"
  else if e = 16386 then ErrorVal.msg "Temperature of motor winding is too high"
  else if e = 20481 then ErrorVal.msg "Torque limiting is active"
  else if e = 24577 then ErrorVal.msg "Locked shaft condition detected"
  else if e = 28673 then ErrorVal.msg "Regulator error is large"
  else ErrorVal.code e

/-- The status dictionary returned by `get_current_status`. -/
structure Status where
  position : Int
  speed : Nat
  torque : Int
  voltage : Int
  current : Int
  electronics_temp : Nat
  motor_temp : Nat
  error : ErrorVal
  deriving DecidableEq, Repr

/-- Embedding of `get_current_status`: five reads (4 registers at MOTOR_POS,
1 at MOTOR_VOLTAGE, 1 at TORQUE_CURRENT, 2 at TEMP_ELECTRONICS, 1 at ERROR),
all issued before checking; any error response raises; then position is the
32-bit signed decode of running registers 0-1, speed is raw register 2, torque
the 16-bit signed decode of register 3, voltage and current 16-bit signed,
temperatures raw, error through the if-chain. Responses too short for the
decoders also raise. -/
def get_current_status (o : Oracle) (n : Nat) :
    Except Unit Status × Nat × List Tx :=
  let r1 := read_holding_registers o n Reg.MOTOR_POS 4
  let r2 := read_holding_registers o r1.2.1 Reg.MOTOR_VOLTAGE 1
  let r3 := read_holding_registers o r2.2.1 Reg.TORQUE_CURRENT 1
  let r4 := read_holding_registers o r3.2.1 Reg.TEMP_ELECTRONICS 2
  let r5 := read_holding_registers o r4.2.1 Reg.ERROR 1
  let trace := r1.2.2 ++ r2.2.2 ++ r3.2.2 ++ r4.2.2 ++ r5.2.2
  match r1.1, r2.1, r3.1, r4.1, r5.1 with
  | Except.ok running, Except.ok volt, Except.ok cur, Except.ok temps,
      Except.ok errRegs =>
    match running[0]?, running[1]?, running[2]?, running[3]?, volt[0]?,
        cur[0]?, temps[0]?, temps[1]?, errRegs[0]? with
    | some p0, some p1, some sp, some tq, some v, some c, some t0, some t1,
        some e =>
      (Except.ok
        { position := toInt32 (p0 * 65536 + p1)
          speed := sp
          torque := toInt16 tq
          voltage := toInt16 v
          current := toInt16 c
          electronics_temp := t0
          motor_temp := t1
          error := errorDecode e }, r5.2.1, trace)
    | _, _, _, _, _, _, _, _, _ => (Except.error (), r5.2.1, trace)
  | _, _, _, _, _ => (Except.error (), r5.2.1, trace)

/-! ## Claims about the converter -/

/-- Claim C8: `convert_degrees_to_smunits` floors toward negative infinity, not
toward zero: with gear_multiplier = 1, the image of -1 is -12 (the floor of
-4096/360), not the toward-zero truncation -11. -/
theorem convert_degrees_to_smunits_floors_negative :
    convert_degrees_to_smunits { gear_multiplier := 1, wheel_size := none } (-1) = -12 ∧
    convert_degrees_to_smunits { gear_multiplier := 1, wheel_size := none } (-1) ≠ -11 := by
  constructor
  · show Int.floor (((-1 : Int) : ℚ) / 360 * 4096 * ((1 : Int) : ℚ)) = -12
    norm_num
  · show Int.floor (((-1 : Int) : ℚ) / 360 * 4096 * ((1 : Int) : ℚ)) ≠ -11
    norm_num

/-- Counterexample to claim C4: constructing with the non-positive integer
gear_multiplier 0 succeeds (no configuration error is raised), contradicting
the claim that construction succeeds only for positive integers. -/
theorem mkConverter_accepts_zero_gear :
    mkConverter (PyNum.int 0) [] =
      Except.ok { gear_multiplier := 0, wheel_size := none } := rfl

/-- Claim C4 (amended): the constructor checks only that gear_multiplier is an
`int` — every integer, including zero and negative ones, is accepted, and every
non-integer number fails the `isinstance` assert with AssertionError. -/
theorem mkConverter_checks_only_intness :
    (∀ (i : Int) (kw : List (String × ℚ)), ∃ c, mkConverter (PyNum.int i) kw = Except.ok c) ∧
    (∀ (q : ℚ) (kw : List (String × ℚ)),
      mkConverter (PyNum.float q) kw = Except.error PyError.assertionError) := by
  constructor
  · intro i kw
    by_cases h : kw.length > 0 <;> simp [mkConverter, h]
  · intro q kw
    rfl

/-- Claim C3 evaluated on the code: a converter constructed without any keyword
argument never assigns `wheel_size`, so `convert_meters_to_steps` (and
`convert_steps_to_meters`) fails with AttributeError — a generic attribute
fault, not a ConfigurationError. -/
theorem convert_meters_without_wheel_size_attribute_fault :
    mkConverter (PyNum.int 2) [] =
      Except.ok { gear_multiplier := 2, wheel_size := none } ∧
    convert_meters_to_steps { gear_multiplier := 2, wheel_size := none } 1 =
      Except.error PyError.attributeError ∧
    convert_steps_to_meters { gear_multiplier := 2, wheel_size := none } 100 =
      Except.error PyError.attributeError :=
  ⟨rfl, rfl, rfl⟩

/-- Claim C9: constructing with at least one keyword argument but without
`wheel_size` among them silently sets `wheel_size` to the default 1, and the
meters conversion then succeeds, computing with wheel circumference parameter 1
and raising no error. -/
theorem kwargs_default_wheel_size_one (g : Int) (kw : List (String × ℚ)) (m : ℚ)
    (hne : kw ≠ []) (hw : kw.lookup "wheel_size" = none) :
    mkConverter (PyNum.int g) kw =
      Except.ok { gear_multiplier := g, wheel_size := some 1 } ∧
    convert_meters_to_steps { gear_multiplier := g, wheel_size := some 1 } m =
      Except.ok (Int.floor (m / (1 * mathPi * 2) * 4096 * (g : ℚ))) := by
  constructor
  · have hlen : kw.length > 0 := by
      cases kw with
      | nil => exact absurd rfl hne
      | cons a l => simp
    simp [mkConverter, hlen, hw]
  · rfl

/-- Witness for C9 at a concrete input: one keyword argument `other = 2`,
gear 3, meters 5. -/
theorem kwargs_default_wheel_size_one_witness :
    mkConverter (PyNum.int 3) [("other", 2)] =
      Except.ok { gear_multiplier := 3, wheel_size := some 1 } ∧
    convert_meters_to_steps { gear_multiplier := 3, wheel_size := some 1 } 5 =
      Except.ok (Int.floor ((5 : ℚ) / (1 * mathPi * 2) * 4096 * ((3 : Int) : ℚ))) :=
  kwargs_default_wheel_size_one 3 [("other", 2)] 5 (by decide) rfl

/-- Claim C7: for every non-negative integer degrees and positive integer
gear_multiplier, converting degrees to SMUnits and back lands within one unit
of the original degrees value. -/
theorem degrees_roundtrip_within_one (c : PySimplexConverter) (d : Int)
    (hd : 0 ≤ d) (hg : 0 < c.gear_multiplier) :
    |convert_smunits_to_degrees c (convert_degrees_to_smunits c d) - d| ≤ 1 := by
  have hgQ : (0 : ℚ) < (c.gear_multiplier : ℚ) := by exact_mod_cast hg
  have hg1 : (1 : ℚ) ≤ (c.gear_multiplier : ℚ) := by exact_mod_cast hg
  set s : Int := convert_degrees_to_smunits c d with hsdef
  have hs_le : (s : ℚ) ≤ (d : ℚ) / 360 * 4096 * (c.gear_multiplier : ℚ) :=
    Int.floor_le _
  have hs_gt : (d : ℚ) / 360 * 4096 * (c.gear_multiplier : ℚ) - 1 < (s : ℚ) :=
    Int.sub_one_lt_floor _
  have hy_le : (s : ℚ) / 4096 / (c.gear_multiplier : ℚ) * 360 ≤ (d : ℚ) := by
    rw [div_div, div_mul_eq_mul_div, div_le_iff₀ (by positivity)]
    nlinarith [hs_le]
  have hy_gt : ((d : ℚ) - 1) < (s : ℚ) / 4096 / (c.gear_multiplier : ℚ) * 360 := by
    rw [div_div, div_mul_eq_mul_div, lt_div_iff₀ (by positivity)]
    nlinarith [hs_gt, hg1]
  have hub : convert_smunits_to_degrees c s < d + 1 := by
    simp only [convert_smunits_to_degrees]
    rw [Int.floor_lt]
    push_cast
    linarith
  have hlb : d - 1 ≤ convert_smunits_to_degrees c s := by
    simp only [convert_smunits_to_degrees]
    rw [Int.le_floor]
    push_cast
    linarith
  rw [abs_le]
  omega

/-- Witness for C7 at gear_multiplier 3 and degrees 100. -/
theorem degrees_roundtrip_within_one_witness :
    (0 : Int) ≤ 100 ∧
    (0 : Int) < PySimplexConverter.gear_multiplier { gear_multiplier := 3, wheel_size := none } ∧
    |convert_smunits_to_degrees { gear_multiplier := 3, wheel_size := none }
        (convert_degrees_to_smunits { gear_multiplier := 3, wheel_size := none } 100) - 100| ≤ 1 :=
  ⟨by decide, by decide,
    degrees_roundtrip_within_one { gear_multiplier := 3, wheel_size := none } 100
      (by decide) (by decide)⟩

/-! ## Claims about the driver -/

/-- Counterexample to claim C2: on the spec's example input (error register
0x1001 = 4097), `get_current_status` does not return the claimed record — the
error field decodes to "General communication error", not "Temperature of
electronics is too high" (which is the decoding of 0x4001 = 16385). -/
theorem get_current_status_example_error_field :
    (get_current_status (scriptOracle
      [Except.ok [0, 16, 5, 65526], Except.ok [230], Except.ok [50],
       Except.ok [30, 25], Except.ok [4097]] []) 0).1 ≠
    Except.ok
      { position := 16, speed := 5, torque := -10, voltage := 230, current := 50,
        electronics_temp := 30, motor_temp := 25,
        error := ErrorVal.msg "Temperature of electronics is too high" } := by
  intro h
  rw [show (get_current_status (scriptOracle
      [Except.ok [0, 16, 5, 65526], Except.ok [230], Except.ok [50],
       Except.ok [30, 25], Except.ok [4097]] []) 0).1 =
    Except.ok
      { position := 16, speed := 5, torque := -10, voltage := 230, current := 50,
        electronics_temp := 30, motor_temp := 25,
        error := ErrorVal.msg "General communication error" } from rfl] at h
  have h2 := congrArg (fun s => Except.map Status.error s) h
  simp only [Except.map] at h2
  exact absurd (ErrorVal.msg.inj (Except.ok.inj h2)) (by decide)

/-- Claim C2 (amended): on running-data registers [0x0000, 0x0010, 0x0005,
0xFFF6], voltage [0x00E6], current [0x0032], temperatures [0x001E, 0x0019] and
error register [0x1001], `get_current_status` returns position 16, speed 5,
torque -10, voltage 230, current 50, electronics_temp 30, motor_temp 25, and
error "General communication error" (0x1001 = 4097 is the general communication
error code; the temperature message corresponds to 0x4001). -/
theorem get_current_status_example_decode :
    (get_current_status (scriptOracle
      [Except.ok [0, 16, 5, 65526], Except.ok [230], Except.ok [50],
       Except.ok [30, 25], Except.ok [4097]] []) 0).1 =
    Except.ok
      { position := 16, speed := 5, torque := -10, voltage := 230, current := 50,
        electronics_temp := 30, motor_temp := 25,
        error := ErrorVal.msg "General communication error" } := rfl

/-- Claim C5 evaluated on the code: `get_torque` issues exactly one 1-register
read of MOTOR_TORQUE, but returns the raw register value with no sign decoding:
on raw 0xFFF6 = 65526 it returns 65526, whereas the 16-bit signed
interpretation of that register is -10. -/
theorem get_torque_returns_raw_register :
    (get_torque (scriptOracle [Except.ok [65526]] []) 0).1 = Except.ok 65526 ∧
    (get_torque (scriptOracle [Except.ok [65526]] []) 0).2.2 =
      [Tx.read Reg.MOTOR_TORQUE 1] ∧
    toInt16 65526 = -10 ∧ (65526 : Int) ≠ -10 :=
  ⟨rfl, rfl, by decide, by decide⟩

/-- Claim C6: when the initial mode read returns exactly the target mode (33
for `go_with_speed`, 21 for `go_to_position`), the command issues no reset
write and no mode write — the full transaction trace is the mode read followed
only by the parameter writes and the target write. -/
theorem mode_skip_trace (o1 o2 : Oracle) (n m : Nat)
    (sp acc steps sp2 acc2 : Int)
    (h1 : o1.readAt n = Except.ok [33])
    (h2 : o2.readAt m = Except.ok [21]) :
    (go_with_speed o1 n sp acc).2.2 =
      [Tx.read Reg.MODE 1, Tx.write Reg.MOTOR_MAX_ACCELERATION acc,
       Tx.writeMulti Reg.SET_MOTOR_TARGET (enc32 sp)] ∧
    (go_to_position o2 m steps sp2 acc2).2.2 =
      [Tx.read Reg.MODE 1, Tx.write Reg.MOTOR_MAX_SPEED sp2,
       Tx.write Reg.MOTOR_MAX_ACCELERATION acc2,
       Tx.writeMulti Reg.SET_MOTOR_TARGET (enc32 steps)] := by
  constructor
  · simp [go_with_speed, get_mode, read_holding_registers, h1,
      set_max_acceleration, set_target, write_register, write_registers]
  · simp [go_to_position, get_mode, read_holding_registers, h2,
      set_max_speed, set_max_acceleration, set_target, write_register,
      write_registers]

/-- Witness for C6 with script oracles answering the mode read with 33 and 21. -/
theorem mode_skip_trace_witness :
    (go_with_speed (scriptOracle [Except.ok [33]] []) 0 7 8).2.2 =
      [Tx.read Reg.MODE 1, Tx.write Reg.MOTOR_MAX_ACCELERATION 8,
       Tx.writeMulti Reg.SET_MOTOR_TARGET (enc32 7)] ∧
    (go_to_position (scriptOracle [Except.ok [21]] []) 0 9 10 11).2.2 =
      [Tx.read Reg.MODE 1, Tx.write Reg.MOTOR_MAX_SPEED 10,
       Tx.write Reg.MOTOR_MAX_ACCELERATION 11,
       Tx.writeMulti Reg.SET_MOTOR_TARGET (enc32 9)] :=
  mode_skip_trace (scriptOracle [Except.ok [33]] [])
    (scriptOracle [Except.ok [21]] []) 0 0 7 8 9 10 11 rfl rfl

/-- Claim C1 evaluated on the code at the failing input: the mode read returns
0 (not the target mode), the reset write succeeds, and the MODE write fails
(write slot 2 answers false). The composite command nevertheless issues the
remaining parameter and target writes and returns the target write's success —
it neither skips the later sub-steps nor signals the mode-write failure. -/
theorem go_continues_after_set_mode_failure :
    (scriptOracle [Except.ok [0]]
      [false, true, false, true, true, true]).writeAt 2 = false ∧
    go_to_position (scriptOracle [Except.ok [0]]
        [false, true, false, true, true, true]) 0 100 7 8 =
      (Except.ok true, 6,
       [Tx.read Reg.MODE 1, Tx.write Reg.MODE 1, Tx.write Reg.MODE 21,
        Tx.write Reg.MOTOR_MAX_SPEED 7, Tx.write Reg.MOTOR_MAX_ACCELERATION 8,
        Tx.writeMulti Reg.SET_MOTOR_TARGET (enc32 100)]) ∧
    go_with_speed (scriptOracle [Except.ok [0]]
        [false, true, false, true, true]) 0 7 8 =
      (Except.ok true, 5,
       [Tx.read Reg.MODE 1, Tx.write Reg.MODE 1, Tx.write Reg.MODE 33,
        Tx.write Reg.MOTOR_MAX_ACCELERATION 8,
        Tx.writeMulti Reg.SET_MOTOR_TARGET (enc32 7)]) :=
  ⟨rfl, rfl, rfl⟩

/-- Claim C10: whenever `go_with_speed` or `go_to_position` returns (does not
raise), the returned boolean equals the success flag of the final `set_target`
write — the write performed at the last consumed bus slot — so failures of the
intermediate `set_mode`, `set_max_speed` and `set_max_acceleration` writes do
not affect the returned value. -/
theorem go_return_equals_set_target_success (o : Oracle) (n : Nat)
    (sp acc steps spd acc2 : Int) :
    (∀ b, (go_with_speed o n sp acc).1 = Except.ok b →
      b = (set_target o ((go_with_speed o n sp acc).2.1 - 1) sp).1) ∧
    (∀ b, (go_to_position o n steps spd acc2).1 = Except.ok b →
      b = (set_target o ((go_to_position o n steps spd acc2).2.1 - 1) steps).1) := by
  constructor
  · intro b hb
    rcases hr : o.readAt n with e | regs
    · simp [go_with_speed, get_mode, read_holding_registers, hr] at hb
    · rcases regs with _ | ⟨m, rest⟩
      · simp [go_with_speed, get_mode, read_holding_registers, hr] at hb
      · by_cases hm : m = 33
        · simp [go_with_speed, get_mode, read_holding_registers, hr, hm,
            set_max_acceleration, set_target, write_register,
            write_registers] at hb ⊢
          exact hb.symm
        · rcases hw : o.writeAt (n + 1) with _ | _
          · simp [go_with_speed, get_mode, read_holding_registers, reset_motor,
              write_register, hr, hm, hw] at hb
          · simp [go_with_speed, get_mode, read_holding_registers, reset_motor,
              set_mode, set_max_acceleration, set_target, write_register,
              write_registers, hr, hm, hw] at hb ⊢
            exact hb.symm
  · intro b hb
    rcases hr : o.readAt n with e | regs
    · simp [go_to_position, get_mode, read_holding_registers, hr] at hb
    · rcases regs with _ | ⟨m, rest⟩
      · simp [go_to_position, get_mode, read_holding_registers, hr] at hb
      · by_cases hm : m = 21
        · simp [go_to_position, get_mode, read_holding_registers, hr, hm,
            set_max_speed, set_max_acceleration, set_target, write_register,
            write_registers] at hb ⊢
          exact hb.symm
        · rcases hw : o.writeAt (n + 1) with _ | _
          · simp [go_to_position, get_mode, read_holding_registers, reset_motor,
              write_register, hr, hm, hw] at hb
          · simp [go_to_position, get_mode, read_holding_registers, reset_motor,
              set_mode, set_max_speed, set_max_acceleration, set_target,
              write_register, write_registers, hr, hm, hw] at hb ⊢
            exact hb.symm

/-- Witness for C10 on a script oracle in speed mode with a successful target
write. -/
theorem go_return_equals_set_target_success_witness :
    (true : Bool) =
      (set_target (scriptOracle [Except.ok [33]] [false, true, true])
        ((go_with_speed (scriptOracle [Except.ok [33]] [false, true, true])
            0 7 8).2.1 - 1) 7).1 :=
  (go_return_equals_set_target_success
      (scriptOracle [Except.ok [33]] [false, true, true]) 0 7 8 9 10 11).1
    true rfl

end PySimplex
